import Mathlib

/-!
Verification development for the planetaryum static-site build pipeline
(`src/planetaryum/builders.py` and `src/planetaryum/apps/static_gen.py`).

The Builder composition model (`Builder.__rshift__`, `BuilderChain.__rshift__`,
`BuilderChain.run`) is embedded as a small object language `PyObj`; the
static-HTML builder's filesystem effects are embedded as a pure function
producing a trace record of created directories and written files.
-/

namespace Planetaryum

/-- Python exception kinds raised by the composition operator: `__rshift__`
raises `ValueError` on a non-Builder right operand, and Python itself raises
`TypeError` when the left operand is not a Builder at all. -/
inductive PyErr where
| valueError : String → PyErr
| typeError : String → PyErr
deriving DecidableEq

/-- Objects that can appear on either side of the `>>` operator:
a plain `Builder` instance (atom of type `A`, carrying whatever data the
concrete builder holds), a `BuilderChain` with its `steps` tuple, or a value
that is not an instance of `Builder` at all. -/
inductive PyObj (A : Type) where
| builder : A → PyObj A
| builderChain : List (PyObj A) → PyObj A
| other : Nat → PyObj A

/-- Python's `type(x).__name__`, as used in the `ValueError` message of
`__rshift__`. -/
def pyTypeName {A : Type} : PyObj A → String
| PyObj.builder _ => "Builder"
| PyObj.builderChain _ => "BuilderChain"
| PyObj.other _ => "NonBuilder"

/-- `isinstance(x, Builder)`: `BuilderChain` is a subclass of `Builder`,
so both count as Builder instances. -/
def isBuilderInst {A : Type} : PyObj A → Bool
| PyObj.builder _ => true
| PyObj.builderChain _ => true
| PyObj.other _ => false

/-- The `>>` operator of `builders.py`.

`BuilderChain.__rshift__` (used when the left operand is a chain):
chain >> chain concatenates the step tuples, chain >> builder appends the
builder, anything else raises `ValueError`.

`Builder.__rshift__` (used when the left operand is a plain builder):
builder >> chain prepends the builder to the chain's steps, builder >>
builder makes a two-step chain, anything else raises `ValueError`.

A non-Builder left operand has no `__rshift__`, so Python raises
`TypeError`. -/
def rshift {A : Type} : PyObj A → PyObj A → Except PyErr (PyObj A)
| PyObj.builderChain ss, PyObj.builderChain ts =>
    Except.ok (PyObj.builderChain (ss ++ ts))
| PyObj.builderChain ss, PyObj.builder b =>
    Except.ok (PyObj.builderChain (ss ++ [PyObj.builder b]))
| PyObj.builderChain _, PyObj.other n =>
    Except.error (PyErr.valueError
      ("Expected object of type Builder, found " ++ pyTypeName (PyObj.other n : PyObj A)))
| PyObj.builder a, PyObj.builderChain ts =>
    Except.ok (PyObj.builderChain (PyObj.builder a :: ts))
| PyObj.builder a, PyObj.builder b =>
    Except.ok (PyObj.builderChain [PyObj.builder a, PyObj.builder b])
| PyObj.builder _, PyObj.other n =>
    Except.error (PyErr.valueError
      ("Expected object of type Builder, found " ++ pyTypeName (PyObj.other n : PyObj A)))
| PyObj.other _, _ =>
    Except.error (PyErr.typeError "unsupported operand types for rshift")

mutual
/-- Execution of a Builder object, given the run semantics `runA` of the
atomic builders. A `BuilderChain` runs its steps sequentially, threading the
state (`BuilderChain.run`); a plain builder runs its own `run`. `run` is
only meaningful for Builder instances; a non-Builder value is given the
identity here, but no theorem ever runs one. -/
def runObj {A σ : Type} (runA : A → σ → σ) : PyObj A → σ → σ
| PyObj.builder a, s => runA a s
| PyObj.builderChain ss, s => runList runA ss s
| PyObj.other _, s => s

/-- The loop body of `BuilderChain.run`: `for s in self.steps: state = s.run(state)`. -/
def runList {A σ : Type} (runA : A → σ → σ) : List (PyObj A) → σ → σ
| [], s => s
| o :: os, s => runList runA os (runObj runA o s)
end

/-! ## Static HTML builder (`StaticHTMLBuilder.run`)

Filesystem paths are modelled as lists of path segments (`pathlib.Path`
components); the out directory is such a list.  `run`'s effects are recorded
in a `RunResult`: directories created, HTML files written (in write order),
the `meta.json` content (structurally), and the CSS asset files written. -/

/-- Modelled from the spec: the extraction pipeline (`extractors.py`, whose
source is not under `src/`) yields, per document and in source order, a
bundle holding the document `name` and the requested facets.  The fields
mirror exactly the accesses made by `StaticHTMLBuilder.run`:
`data['html']['meta']['inlining']['css']` is the list of inline stylesheet
fragments. -/
structure InliningInfo where
css : List String
deriving DecidableEq

/-- The `meta` sub-mapping of the html facet, as accessed by
`data['html']['meta']['inlining']`. -/
structure HtmlFacetMeta where
inlining : InliningInfo
deriving DecidableEq

/-- The `html` facet: `data['html']['html']` is the rendered page and
`data['html']['meta']` its metadata. -/
structure HtmlFacet where
html : String
meta : HtmlFacetMeta
deriving DecidableEq

/-- One extraction result bundle (`data` in the loop of
`StaticHTMLBuilder.run`): the document `name`, the `html` facet, and the
`meta` facet (an arbitrary mapping, kept abstract as `β`). -/
structure DocBundle (β : Type) where
name : String
html : HtmlFacet
meta : β
deriving DecidableEq

/-- One entry of `meta['notebooks']`, exactly the dict appended by
`StaticHTMLBuilder.run`. -/
structure NbEntry (β : Type) where
idStr : String
name : String
filename : String
path : String
meta : β
deriving DecidableEq

/-- The metadata index `meta` that `run` serialises to `meta.json`:
`\x7b'cmdargs': ..., 'notebooks': [...]\x7d`. -/
structure MetaIndex (α β : Type) where
cmdargs : α
notebooks : List (NbEntry β)
deriving DecidableEq

/-- Render a relative path (list of segments) the way
`str(path.relative_to(self.out))` does, joining segments with `/`. -/
def renderSegs : List String → String
| [] => ""
| [x] => x
| x :: y :: xs => x ++ "/" ++ renderSegs (y :: xs)

/-- The index entry appended for one document:
`'_id': 'notebook/%s' % name`, `'name'`, `'filename': name + '.ipynb'`,
`'path': str(path.relative_to(self.out))` and the `meta` facet verbatim. -/
def notebookEntry {β : Type} (out : List String) (d : DocBundle β) : NbEntry β :=
⟨"notebook/" ++ d.name, d.name, d.name ++ ".ipynb",
  renderSegs ((out ++ ["notebooks"] ++ [d.name ++ ".html"]).drop out.length),
  d.meta⟩

/-- Outcome of the document loop: on success, the files written, the
accumulated notebook entries, and the `css` variable (None until the first
document, then the last processed document's fragment list); when a bundle
request raises, only the files already written survive. -/
inductive LoopRes (β : Type) where
| ok : List (List String × String) → List (NbEntry β) → Option (List String) → LoopRes β
| failed : List (List String × String) → LoopRes β

/-- The `for i, data in enumerate(ex.extract(...))` loop of
`StaticHTMLBuilder.run`.  A bundle is pulled lazily; pulling may raise
(modelled as `Except.error`), which aborts the loop with the writes made so
far.  For an `ok` bundle the loop writes `notebooks/<name>.html`, rebinds
`css` to this document's fragment list, and appends the index entry. -/
def docLoop {β : Type} (out : List String) :
    List (Except Unit (DocBundle β)) → List (List String × String) →
    List (NbEntry β) → Option (List String) → LoopRes β
| [], files, entries, css => LoopRes.ok files entries css
| Except.error _ :: _, files, _, _ => LoopRes.failed files
| Except.ok d :: rest, files, entries, _ =>
    docLoop out rest
      (files ++ [(out ++ ["notebooks"] ++ [d.name ++ ".html"], d.html.html)])
      (entries ++ [notebookEntry out d])
      (some d.html.meta.inlining.css)

/-- Value of the `css` variable after the loop: `None` if no document was
processed, otherwise the last processed document's fragment list (each
iteration rebinds `css` wholesale). -/
def lastCssVar {β : Type} : List (DocBundle β) → Option (List String) → Option (List String)
| [], c => c
| d :: rest, _ => lastCssVar rest (some d.html.meta.inlining.css)

/-- The CSS-writing loop: `for i, sheet in enumerate(css):` writes `sheet`
to `assets/css/nbconvert-%d.css % i`. -/
def cssAssetFiles (assets : List String) : Nat → List String → List (List String × String)
| _, [] => []
| i, sheet :: rest =>
    (assets ++ ["nbconvert-" ++ toString i ++ ".css"], sheet) :: cssAssetFiles assets (i + 1) rest

/-- The observable effects and result of one `StaticHTMLBuilder.run` call. -/
structure RunResult (α β σ : Type) where
dirs : List (List String)
htmlFiles : List (List String × String)
metaJson : Option (MetaIndex α β)
cssFiles : List (List String × String)
ret : Option σ
deriving DecidableEq

/-- `StaticHTMLBuilder.run(state)`: create `out/notebooks`; initialise
`meta` with the passed-through `cmdargs` and an empty notebook list and
`css = None`; loop over the extraction bundles; write `meta.json`; then,
if `self.write_css and css` (a `None` or empty `css` is falsy), create
`out/assets/css` and write the numbered CSS files; finally `return state`.
If pulling a bundle raises, the exception propagates: no `meta.json`, no
CSS, no returned state. -/
def staticRun {α β σ : Type} (out : List String) (cmdargs : α) (write_css : Bool)
    (bundles : List (Except Unit (DocBundle β))) (state : σ) : RunResult α β σ :=
match docLoop out bundles [] [] none with
| LoopRes.failed files => ⟨[out ++ ["notebooks"]], files, none, [], none⟩
| LoopRes.ok files entries css =>
    match css with
    | some l =>
        if write_css && !l.isEmpty then
          ⟨[out ++ ["notebooks"], out ++ ["assets", "css"]], files,
            some ⟨cmdargs, entries⟩,
            cssAssetFiles (out ++ ["assets", "css"]) 0 l, some state⟩
        else ⟨[out ++ ["notebooks"]], files, some ⟨cmdargs, entries⟩, [], some state⟩
    | none => ⟨[out ++ ["notebooks"]], files, some ⟨cmdargs, entries⟩, [], some state⟩

/-- A Python dict used as build state (string keys, numeric values
suffice to exhibit the behaviour of state threading). -/
abbrev PyDict : Type := List (String × Nat)

/-! ## StaticGen application (`src/planetaryum/apps/static_gen.py`) -/

/-- Configuration of the two extractors instantiated by
`StaticHTMLBuilder.__init__`: `ex.MetadataExtractor('meta',
thumbnails=thumbnails)` and `ex.HTMLExtractor('html',
template_file=template_file)`.  The extractor classes live in
`extractors.py` (not under `src/`); only their construction arguments are
modelled, which is all `__init__` fixes. -/
inductive ExtractorCfg where
| metadataEx : String → Bool → ExtractorCfg
| htmlEx : String → Option String → ExtractorCfg
deriving DecidableEq

/-- What `StaticHTMLBuilder.__init__` stores: the reader (opaque handle),
`out`, `cmdargs`, `write_css`, and the two configured extractors. -/
structure StaticHTMLBuilderCfg (α : Type) where
reader : Nat
out : List String
cmdargs : α
write_css : Bool
extractors : List ExtractorCfg
deriving DecidableEq

/-- `StaticHTMLBuilder.__init__(reader, out_dir, cmdargs, template_file,
thumbnails, write_css)`. -/
def mkStaticHTMLBuilder {α : Type} (reader : Nat) (out_dir : List String)
    (cmdargs : α) (template_file : Option String) (thumbnails : Bool)
    (write_css : Bool) : StaticHTMLBuilderCfg α :=
⟨reader, out_dir, cmdargs, write_css,
  [ExtractorCfg.metadataEx "meta" thumbnails, ExtractorCfg.htmlEx "html" template_file]⟩

/-- Atomic builders appearing in the `StaticGen` chain: the configured
`StaticHTMLBuilder`, or the caller-supplied finishing builder (opaque
handle). -/
inductive AppBuilder (α : Type) where
| shb : StaticHTMLBuilderCfg α → AppBuilder α
| finisher : Nat → AppBuilder α
deriving DecidableEq

/-- `StaticGen.__init__`: `self.builder = StaticHTMLBuilder(reader,
out_dir, cmdargs, template_file, thumbnails=True, write_css=True) >>
builder`. -/
def staticGenInit {α : Type} (reader : Nat) (out_dir : List String)
    (builder : PyObj (AppBuilder α)) (cmdargs : α) (template_file : Option String) :
    Except PyErr (PyObj (AppBuilder α)) :=
rshift
  (PyObj.builder (AppBuilder.shb
    (mkStaticHTMLBuilder reader out_dir cmdargs template_file true true)))
  builder

/-- `StaticGen.build`: `self.builder.run()` — one run of the composed
chain with no state argument, so starting from the default mapping `{}`
(empty as long as no earlier in-place mutation polluted it; the
`[]` here is its pristine value). -/
def staticGenBuild {α : Type} (runA : AppBuilder α → PyDict → PyDict)
    (chain : PyObj (AppBuilder α)) : PyDict :=
runObj runA chain []

/-! ## Python default-argument semantics of `BuilderChain.run`

`BuilderChain.run(self, state={})` evaluates the default `{}` once, at
function definition time; every call made without a `state` argument is
handed that same dict object.  A heap of dict objects (addressed by
index) makes the sharing explicit: the default dict lives at address 0,
allocated (empty) at definition time. -/

/-- A store of dict objects; a reference is an index into the store. -/
abbrev Heap : Type := List PyDict

/-- Dereference a dict object. -/
def heapGet (h : Heap) (r : Nat) : PyDict := List.getD h r []

/-- Overwrite a dict object in place. -/
def heapSet (h : Heap) (r : Nat) (v : PyDict) : Heap := List.set h r v

/-- One builder step of a chain, as its `run(state)` behaves on the dict
it receives: `rebind` computes and returns a fresh dict object (leaving
its argument untouched), `inplace` mutates the received dict object in
place (for example `state['x'] = 1`) and returns it. -/
inductive StepB where
| rebind : (PyDict → PyDict) → StepB
| inplace : (PyDict → PyDict) → StepB

/-- Effect of one step on (reference handed in, heap). -/
def stepRunH : StepB → Nat × Heap → Nat × Heap
| StepB.rebind f, (r, h) => (h.length, h ++ [f (heapGet h r)])
| StepB.inplace f, (r, h) => (r, heapSet h r (f (heapGet h r)))

/-- `BuilderChain.run` body: `for s in self.steps: state = s.run(state)`,
threading the dict reference through the steps. -/
def chainRunH (steps : List StepB) (p : Nat × Heap) : Nat × Heap :=
List.foldl (fun acc s => stepRunH s acc) p steps

/-- Heap after `n` no-argument calls of `chain.run()`.  At definition
time (`n = 0`) the default dict is allocated empty at address 0; each
no-argument call passes that same address 0 as `state`. -/
def heapAfterCalls (steps : List StepB) : Nat → Heap
| 0 => [[]]
| n + 1 => (chainRunH steps (0, heapAfterCalls steps n)).2

/-- The dict value bound to `state` at the start of the `(n+1)`-th
no-argument call: the current contents of the shared default dict. -/
def stateSeenByCall (steps : List StepB) (n : Nat) : PyDict :=
heapGet (heapAfterCalls steps n) 0

/-- A chain whose single builder executes `state['x'] = 1; return state`,
mutating its state argument in place. -/
def mutatingChain : List StepB := [StepB.inplace (fun st => st ++ [("x", 1)])]

/-! ## Theorems -/

/-- Running a one-step chain is running that step. -/
theorem runList_singleton {A σ : Type} (runA : A → σ → σ) (o : PyObj A) (s : σ) :
    runList runA [o] s = runObj runA o s := by
  simp [runList]

/-- C1: Builder chain composition is associative and flattening: for all
Builders `a`, `b`, `c`, both `(a >> b) >> c` and `a >> (b >> c)` yield the
single flat chain with steps exactly `[a, b, c]` (no nested chains), and
running that chain applies `a`, then `b`, then `c`, once each. -/
theorem builder_rshift_assoc_flattens {A σ : Type} (runA : A → σ → σ) (a b c : A) :
    (rshift (PyObj.builder a) (PyObj.builder b)).bind
        (fun ab => rshift ab (PyObj.builder c)) =
      Except.ok (PyObj.builderChain
        [PyObj.builder a, PyObj.builder b, PyObj.builder c]) ∧
    (rshift (PyObj.builder b) (PyObj.builder c)).bind
        (fun bc => rshift (PyObj.builder a) bc) =
      Except.ok (PyObj.builderChain
        [PyObj.builder a, PyObj.builder b, PyObj.builder c]) ∧
    ∀ s : σ, runObj runA
        (PyObj.builderChain [PyObj.builder a, PyObj.builder b, PyObj.builder c]) s =
      runA c (runA b (runA a s)) := by
  refine ⟨rfl, rfl, fun s => ?_⟩
  simp [runObj, runList]

/-- C5: composing a Builder (or BuilderChain) with a non-Builder value
raises `ValueError` at composition time (`rshift` is pure structure
building and never invokes `run`), while composing with any Builder
instance succeeds. -/
theorem rshift_non_builder_valueError {A : Type} (b x y : PyObj A)
    (hb : isBuilderInst b = true) (hx : isBuilderInst x = false)
    (hy : isBuilderInst y = true) :
    (∃ msg, rshift b x = Except.error (PyErr.valueError msg)) ∧
    (∃ r, rshift b y = Except.ok r) := by
  cases b with
  | other n => simp [isBuilderInst] at hb
  | builder a =>
      cases x with
      | builder _ => simp [isBuilderInst] at hx
      | builderChain _ => simp [isBuilderInst] at hx
      | other n =>
          cases y with
          | other _ => simp [isBuilderInst] at hy
          | builder c => exact ⟨⟨_, rfl⟩, ⟨_, rfl⟩⟩
          | builderChain ts => exact ⟨⟨_, rfl⟩, ⟨_, rfl⟩⟩
  | builderChain ss =>
      cases x with
      | builder _ => simp [isBuilderInst] at hx
      | builderChain _ => simp [isBuilderInst] at hx
      | other n =>
          cases y with
          | other _ => simp [isBuilderInst] at hy
          | builder c => exact ⟨⟨_, rfl⟩, ⟨_, rfl⟩⟩
          | builderChain ts => exact ⟨⟨_, rfl⟩, ⟨_, rfl⟩⟩

/-- Witness for C5 at a concrete builder, non-Builder value and chain. -/
theorem rshift_non_builder_valueError_witness :
    (∃ msg, rshift (PyObj.builder (0 : Nat)) (PyObj.other 1) =
      Except.error (PyErr.valueError msg)) ∧
    (∃ r, rshift (PyObj.builder (0 : Nat)) (PyObj.builderChain []) = Except.ok r) :=
  rshift_non_builder_valueError (PyObj.builder 0) (PyObj.other 1)
    (PyObj.builderChain []) rfl rfl rfl

/-- C10: the zero-step `BuilderChain()` is an identity Builder: its run
returns the state unchanged, and composing it on either side with any
Builder yields a chain that runs exactly like that Builder. -/
theorem empty_chain_identity {A σ : Type} (runA : A → σ → σ) (b : PyObj A)
    (hb : isBuilderInst b = true) :
    (∀ s : σ, runObj runA (PyObj.builderChain []) s = s) ∧
    (∃ l, rshift (PyObj.builderChain []) b = Except.ok l ∧
      ∀ s : σ, runObj runA l s = runObj runA b s) ∧
    (∃ r, rshift b (PyObj.builderChain []) = Except.ok r ∧
      ∀ s : σ, runObj runA r s = runObj runA b s) := by
  refine ⟨fun s => by simp [runObj, runList], ?_, ?_⟩
  · cases b with
    | other n => simp [isBuilderInst] at hb
    | builder a => exact ⟨_, rfl, fun s => by simp [runObj, runList]⟩
    | builderChain ss => exact ⟨_, rfl, fun s => by simp [runObj]⟩
  · cases b with
    | other n => simp [isBuilderInst] at hb
    | builder a => exact ⟨_, rfl, fun s => by simp [runObj, runList]⟩
    | builderChain ss => exact ⟨_, rfl, fun s => by simp [runObj]⟩

/-- Witness for C10 at a concrete atomic builder with addition semantics. -/
theorem empty_chain_identity_witness :
    (∀ s : Nat, runObj (fun (a : Nat) (s : Nat) => a + s) (PyObj.builderChain []) s = s) ∧
    (∃ l, rshift (PyObj.builderChain []) (PyObj.builder 2) = Except.ok l ∧
      ∀ s : Nat, runObj (fun (a : Nat) (s : Nat) => a + s) l s =
        runObj (fun (a : Nat) (s : Nat) => a + s) (PyObj.builder 2) s) ∧
    (∃ r, rshift (PyObj.builder 2) (PyObj.builderChain []) = Except.ok r ∧
      ∀ s : Nat, runObj (fun (a : Nat) (s : Nat) => a + s) r s =
        runObj (fun (a : Nat) (s : Nat) => a + s) (PyObj.builder 2) s) :=
  empty_chain_identity (fun a s => a + s) (PyObj.builder 2) rfl

/-- The path recorded in the index is the output path relative to the
output root. -/
theorem dropRel (out : List String) (f : String) :
    (out ++ ["notebooks"] ++ [f]).drop out.length = ["notebooks", f] := by
  rw [List.append_assoc]
  exact List.drop_left out (["notebooks"] ++ [f])

/-- Closed form of one index entry. -/
theorem notebookEntry_eq {β : Type} (out : List String) (d : DocBundle β) :
    notebookEntry out d =
      ⟨"notebook/" ++ d.name, d.name, d.name ++ ".ipynb",
        "notebooks" ++ "/" ++ (d.name ++ ".html"), d.meta⟩ := by
  unfold notebookEntry
  rw [dropRel]
  rfl

/-- The document loop over error-free bundles: writes one HTML file per
document in order, appends one index entry per document in order, and
leaves `css` bound to the last document's fragment list. -/
theorem docLoop_ok {β : Type} (out : List String) (docs : List (DocBundle β))
    (files : List (List String × String)) (entries : List (NbEntry β))
    (css : Option (List String)) :
    docLoop out (docs.map Except.ok) files entries css =
      LoopRes.ok
        (files ++ docs.map fun d =>
          (out ++ ["notebooks"] ++ [d.name ++ ".html"], d.html.html))
        (entries ++ docs.map (notebookEntry out))
        (lastCssVar docs css) := by
  induction docs generalizing files entries css with
  | nil => simp [docLoop, lastCssVar]
  | cons d ds ih => simp [docLoop, lastCssVar, ih, List.append_assoc]

/-- The document loop when the bundle after `docs` raises: only the HTML
files for `docs` are written; everything after the failure is ignored. -/
theorem docLoop_abort {β : Type} (out : List String) (docs : List (DocBundle β))
    (rest : List (Except Unit (DocBundle β))) (files : List (List String × String))
    (entries : List (NbEntry β)) (css : Option (List String)) :
    docLoop out (docs.map Except.ok ++ Except.error () :: rest) files entries css =
      LoopRes.failed (files ++ docs.map fun d =>
        (out ++ ["notebooks"] ++ [d.name ++ ".html"], d.html.html)) := by
  induction docs generalizing files entries css with
  | nil => simp [docLoop]
  | cons d ds ih => simp [docLoop, ih, List.append_assoc]

/-- On an error-free run the metadata index holds the passed-through
`cmdargs` and one entry per document, in order. -/
theorem staticRun_ok_metaJson {α β σ : Type} (out : List String) (cmdargs : α)
    (write_css : Bool) (docs : List (DocBundle β)) (state : σ) :
    (staticRun out cmdargs write_css (docs.map Except.ok) state).metaJson =
      some ⟨cmdargs, docs.map (notebookEntry out)⟩ := by
  unfold staticRun
  rw [docLoop_ok]
  cases lastCssVar docs none with
  | none => rfl
  | some l =>
      dsimp only
      split <;> rfl

/-- C3: on an empty Document Source, `StaticHTMLBuilder.run` creates only
the `notebooks/` directory, writes no HTML file, writes a `meta.json`
holding exactly the passed-through `cmdargs` and an empty notebook list,
writes no CSS asset and creates no `assets/css` directory regardless of
`write_css`, and returns the incoming state. -/
theorem staticHTML_empty_source_outputs {α β σ : Type} (out : List String)
    (cmdargs : α) (write_css : Bool) (state : σ) :
    staticRun out cmdargs write_css ([] : List (Except Unit (DocBundle β))) state =
      ⟨[out ++ ["notebooks"]], [], some ⟨cmdargs, []⟩, [], some state⟩ := rfl

/-- C6: `StaticHTMLBuilder.run` returns the incoming state unchanged on
every error-free run, whatever the documents, output root, `cmdargs` and
`write_css`. -/
theorem staticHTML_state_passthrough {α β σ : Type} (out : List String) (cmdargs : α)
    (write_css : Bool) (docs : List (DocBundle β)) (state : σ) :
    (staticRun out cmdargs write_css (docs.map Except.ok) state).ret = some state := by
  unfold staticRun
  rw [docLoop_ok]
  cases lastCssVar docs none with
  | none => rfl
  | some l =>
      dsimp only
      split <;> rfl

/-- C4: for documents named `a`, `b`, `c` in that order, the notebook list
has exactly three entries in that order, with `_id = "notebook/" + name`,
the name, `<name>.ipynb`, the output path relative to the output root,
and the `meta` facet verbatim. -/
theorem staticHTML_meta_index_order_and_fields {α β σ : Type} (out : List String)
    (cmdargs : α) (write_css : Bool) (state : σ) (d1 d2 d3 : DocBundle β)
    (h1 : d1.name = "a") (h2 : d2.name = "b") (h3 : d3.name = "c") :
    (staticRun out cmdargs write_css
        [Except.ok d1, Except.ok d2, Except.ok d3] state).metaJson =
      some ⟨cmdargs,
        [⟨"notebook/a", "a", "a.ipynb", "notebooks/a.html", d1.meta⟩,
         ⟨"notebook/b", "b", "b.ipynb", "notebooks/b.html", d2.meta⟩,
         ⟨"notebook/c", "c", "c.ipynb", "notebooks/c.html", d3.meta⟩]⟩ := by
  have e1 : notebookEntry out d1 =
      (⟨"notebook/a", "a", "a.ipynb", "notebooks/a.html", d1.meta⟩ : NbEntry β) := by
    rw [notebookEntry_eq, h1]
    rfl
  have e2 : notebookEntry out d2 =
      (⟨"notebook/b", "b", "b.ipynb", "notebooks/b.html", d2.meta⟩ : NbEntry β) := by
    rw [notebookEntry_eq, h2]
    rfl
  have e3 : notebookEntry out d3 =
      (⟨"notebook/c", "c", "c.ipynb", "notebooks/c.html", d3.meta⟩ : NbEntry β) := by
    rw [notebookEntry_eq, h3]
    rfl
  have hm := staticRun_ok_metaJson out cmdargs write_css [d1, d2, d3] state
  simp only [List.map] at hm
  rw [hm, e1, e2, e3]

/-- Witness for C4 on three concrete documents. -/
theorem staticHTML_meta_index_order_and_fields_witness :
    (staticRun ["site"] (7 : Nat) true
        [Except.ok ⟨"a", ⟨"pa", ⟨⟨[]⟩⟩⟩, (1 : Nat)⟩,
         Except.ok ⟨"b", ⟨"pb", ⟨⟨[]⟩⟩⟩, 2⟩,
         Except.ok ⟨"c", ⟨"pc", ⟨⟨[]⟩⟩⟩, 3⟩] (0 : Nat)).metaJson =
      some ⟨7,
        [⟨"notebook/a", "a", "a.ipynb", "notebooks/a.html", 1⟩,
         ⟨"notebook/b", "b", "b.ipynb", "notebooks/b.html", 2⟩,
         ⟨"notebook/c", "c", "c.ipynb", "notebooks/c.html", 3⟩]⟩ :=
  staticHTML_meta_index_order_and_fields ["site"] 7 true 0
    ⟨"a", ⟨"pa", ⟨⟨[]⟩⟩⟩, 1⟩ ⟨"b", ⟨"pb", ⟨⟨[]⟩⟩⟩, 2⟩ ⟨"c", ⟨"pc", ⟨⟨[]⟩⟩⟩, 3⟩
    rfl rfl rfl

/-- C2: with `write_css` enabled, when document 1 yields the CSS fragment
list `["body{}"]` and document 2 yields `["a{}", "b{}"]`, the CSS assets
written are exactly `assets/css/nbconvert-0.css` containing `"a{}"` and
`assets/css/nbconvert-1.css` containing `"b{}"`: the last processed
document's list wins and document 1's fragment is discarded, with no
merging or deduplication. -/
theorem staticHTML_css_last_document_wins {α β σ : Type} (out : List String)
    (cmdargs : α) (state : σ) (d1 d2 : DocBundle β)
    (h1 : d1.html.meta.inlining.css = ["body\x7b\x7d"])
    (h2 : d2.html.meta.inlining.css = ["a\x7b\x7d", "b\x7b\x7d"]) :
    (staticRun out cmdargs true [Except.ok d1, Except.ok d2] state).cssFiles =
      [(out ++ ["assets", "css", "nbconvert-0.css"], "a\x7b\x7d"),
       (out ++ ["assets", "css", "nbconvert-1.css"], "b\x7b\x7d")] := by
  have hm := docLoop_ok out [d1, d2] ([] : List (List String × String)) [] none
  simp only [List.map, lastCssVar] at hm
  unfold staticRun
  rw [hm, h2]
  simp [cssAssetFiles, List.append_assoc]
  exact ⟨rfl, rfl⟩

/-- Witness for C2 on two concrete documents. -/
theorem staticHTML_css_last_document_wins_witness :
    (staticRun ["site"] (0 : Nat) true
        [Except.ok ⟨"a", ⟨"pa", ⟨⟨["body\x7b\x7d"]⟩⟩⟩, (0 : Nat)⟩,
         Except.ok ⟨"b", ⟨"pb", ⟨⟨["a\x7b\x7d", "b\x7b\x7d"]⟩⟩⟩, 0⟩]
        (0 : Nat)).cssFiles =
      [(["site"] ++ ["assets", "css", "nbconvert-0.css"], "a\x7b\x7d"),
       (["site"] ++ ["assets", "css", "nbconvert-1.css"], "b\x7b\x7d")] :=
  staticHTML_css_last_document_wins ["site"] 0 0
    ⟨"a", ⟨"pa", ⟨⟨["body\x7b\x7d"]⟩⟩⟩, 0⟩
    ⟨"b", ⟨"pb", ⟨⟨["a\x7b\x7d", "b\x7b\x7d"]⟩⟩⟩, 0⟩ rfl rfl

/-- C8: if requesting the bundle after `docs` raises, `StaticHTMLBuilder.run`
propagates the failure: the HTML files for the earlier documents remain
written, no later bundle is ever consumed (the result does not depend on
`rest`), `meta.json` is not written, no CSS asset is written and no state
is returned. -/
theorem staticHTML_abort_on_extraction_failure {α β σ : Type} (out : List String)
    (cmdargs : α) (write_css : Bool) (docs : List (DocBundle β))
    (rest : List (Except Unit (DocBundle β))) (state : σ) :
    staticRun out cmdargs write_css (docs.map Except.ok ++ Except.error () :: rest) state =
      ⟨[out ++ ["notebooks"]],
        docs.map (fun d => (out ++ ["notebooks"] ++ [d.name ++ ".html"], d.html.html)),
        none, [], none⟩ ∧
    staticRun out cmdargs write_css (docs.map Except.ok ++ Except.error () :: rest) state =
      staticRun out cmdargs write_css (docs.map Except.ok ++ [Except.error ()]) state := by
  have h := docLoop_abort out docs rest ([] : List (List String × String)) [] none
  have h0 := docLoop_abort out docs [] ([] : List (List String × String)) [] none
  constructor
  · unfold staticRun
    rw [h]
    simp
  · unfold staticRun
    rw [h, h0]

/-- C9: `StaticGen.__init__` composes exactly the `StaticHTMLBuilder`
configured with the given reader, output directory, `cmdargs` and
`template_file`, with `thumbnails=True` (stored in the metadata extractor)
and `write_css=True`, followed by the caller-supplied finishing Builder;
`build()` runs that two-step chain once, starting from the (empty) default
state, executing the static HTML step and then the finisher. -/
theorem staticGen_wiring_and_build {α : Type} (reader : Nat) (out_dir : List String)
    (cmdargs : α) (template_file : Option String) (f : AppBuilder α)
    (runA : AppBuilder α → PyDict → PyDict) :
    staticGenInit reader out_dir (PyObj.builder f) cmdargs template_file =
      Except.ok (PyObj.builderChain
        [PyObj.builder (AppBuilder.shb
          ⟨reader, out_dir, cmdargs, true,
           [ExtractorCfg.metadataEx "meta" true, ExtractorCfg.htmlEx "html" template_file]⟩),
         PyObj.builder f]) ∧
    staticGenBuild runA
        (PyObj.builderChain
          [PyObj.builder (AppBuilder.shb
            ⟨reader, out_dir, cmdargs, true,
             [ExtractorCfg.metadataEx "meta" true, ExtractorCfg.htmlEx "html" template_file]⟩),
           PyObj.builder f]) =
      runA f (runA (AppBuilder.shb
        ⟨reader, out_dir, cmdargs, true,
         [ExtractorCfg.metadataEx "meta" true, ExtractorCfg.htmlEx "html" template_file]⟩) []) := by
  constructor
  · rfl
  · simp [staticGenBuild, runObj, runList]

/-- C7 (bug evidence): `BuilderChain.run(self, state={})` shares one
default dict across all no-argument calls.  For a chain whose single step
mutates its state argument in place (`state['x'] = 1; return state`), the
first no-argument call starts from the empty mapping, but the second one
starts from `{'x': 1}` — not from a fresh empty mapping as claimed. -/
theorem run_default_state_shared_across_calls :
    stateSeenByCall mutatingChain 0 = [] ∧
    stateSeenByCall mutatingChain 1 = [("x", 1)] ∧
    stateSeenByCall mutatingChain 1 ≠ [] := by
  refine ⟨rfl, rfl, ?_⟩
  decide

end Planetaryum
